import Mathlib

/-!
Shallow embedding of the MidiDaemon repository (Go) for checking its
natural-language specification.

Embedded source files:
* `internal/midi/handler.go` — event dispatch (`handleEvent`), mapping
  matching (`matchesMapping`), lifecycle (`Start`, `Close`, `IsRunning`).
* `internal/config/config.go` — configuration data model, `setDefaults`,
  `validate`, and the post-decode part of `Load`.
* the actions manager file (`Manager.Execute`, `Manager.ValidateAction`).

Go `int` fields are embedded as `Int`; Go strings as `String`.  The
loosely-typed parameter bag `map[string]interface{}` is embedded as the
list of keys present, since every embedded code path inspects only key
presence (`_, ok := action.Parameters[k]`), never a value.
-/

namespace MidiDaemon

/-- `config.MIDIConfig`: input port name, channel (-1 = all), timeout. -/
structure MIDIConfig where
  inputPort : String
  channel : Int
  timeout : Int
  deriving Repr, DecidableEq

/-- `config.MIDIEvent`: the event filter of a mapping. -/
structure CfgMIDIEvent where
  type : String
  note : Int
  controller : Int
  program : Int
  velocity : Int
  value : Int
  deriving Repr, DecidableEq

/-- `config.Action`: an action type plus its parameter bag, embedded as the
list of parameter keys present. -/
structure Action where
  type : String
  parameters : List String
  deriving Repr, DecidableEq

/-- `config.Mapping`: name, event filter, action, enabled flag. -/
structure Mapping where
  name : String
  event : CfgMIDIEvent
  action : Action
  enabled : Bool
  deriving Repr, DecidableEq

/-- `config.GeneralConfig`. -/
structure GeneralConfig where
  logLevel : String
  autoRestart : Bool
  actionDelay : Int
  deriving Repr, DecidableEq

/-- `config.Config`: the whole configuration tree. -/
structure Config where
  midi : MIDIConfig
  mappings : List Mapping
  general : GeneralConfig
  deriving Repr, DecidableEq

/-- `midi.MIDIEvent`: an incoming MIDI event (the `Timestamp` field is
never inspected by the embedded code and is omitted). -/
structure MIDIEvent where
  type : String
  channel : Int
  note : Int
  controller : Int
  program : Int
  velocity : Int
  value : Int
  deriving Repr, DecidableEq

/-- `Handler.matchesMapping` from `internal/midi/handler.go`: checks the
event type, then per type the identifying field and the threshold field.
The Go `switch` has no `default` case, so a type outside the four known
ones falls through to `return true`. -/
def matchesMapping (event : MIDIEvent) (mappingEvent : CfgMIDIEvent) : Bool :=
  if event.type ≠ mappingEvent.type then false
  else if event.type = "note_on" ∨ event.type = "note_off" then
    if event.note ≠ mappingEvent.note then false
    else if mappingEvent.velocity > 0 ∧ event.velocity < mappingEvent.velocity then false
    else true
  else if event.type = "control_change" then
    if event.controller ≠ mappingEvent.controller then false
    else if mappingEvent.value > 0 ∧ event.value < mappingEvent.value then false
    else true
  else if event.type = "program_change" then
    if event.program ≠ mappingEvent.program then false
    else true
  else true

/-- The mapping loop of `Handler.handleEvent`: walks the configured
mappings in order, skips disabled ones, and for each match launches an
`actionMgr.Execute` call.  The embedding returns the list of actions for
which an execute call is launched, in launch order. -/
def dispatchMappings (event : MIDIEvent) : List Mapping → List Action
  | [] => []
  | m :: rest =>
    if ¬ m.enabled then dispatchMappings event rest
    else if matchesMapping event m.event then
      m.action :: dispatchMappings event rest
    else dispatchMappings event rest

/-- `Handler.handleEvent`: channel filter, then the mapping loop.
Returns the list of actions for which an execute call is launched. -/
def handleEvent (cfg : Config) (event : MIDIEvent) : List Action :=
  if cfg.midi.channel ≠ -1 ∧ event.channel ≠ cfg.midi.channel then []
  else dispatchMappings event cfg.mappings

/-! ## Handler lifecycle (`Start`, `Close`, `IsRunning`) -/

/-- The mutable state of a `midi.Handler` relevant to lifecycle claims:
the `isRunning` flag plus, for the internal resources, how many times each
has been released (`port.Close()`, `close(done)`, `close(eventChan)`).
In Go a second `close` of a channel is a fault, so the release counters
make double-release observable. -/
structure HandlerState where
  isRunning : Bool
  portCloseCalls : Nat
  doneCloseCalls : Nat
  eventChanCloseCalls : Nat
  deriving Repr, DecidableEq

/-- The fresh state built by `NewHandler`. -/
def newHandlerState : HandlerState :=
  { isRunning := false, portCloseCalls := 0, doneCloseCalls := 0
    eventChanCloseCalls := 0 }

/-- The behaviour of the platform `MIDIPort` the handler talks to during
`Start`: the result of `GetPortNames()`, of `Open(portName)` and of
`ReadEvents()`.  The port is an interface in the source; its methods are
embedded as result-valued fields. -/
structure PortModel where
  portNames : Except String (List String)
  openPort : String → Except String Unit
  readEvents : Except String Unit
  deriving Inhabited

/-- `Handler.Start` from `internal/midi/handler.go`, as a state
transformer returning the caller-visible result and the handler state
after the call.  Mirrors the source order: reject when already running,
set `isRunning := true`, resolve the port name (first available port when
the configured name is empty), open the port, start the event stream.
None of the error returns resets `isRunning`.  On success the source
blocks until context cancellation and then returns `nil`. -/
def start (cfg : Config) (port : PortModel) (s : HandlerState) :
    Except String Unit × HandlerState :=
  if s.isRunning then (Except.error "handler läuft bereits", s)
  else
    let s := { s with isRunning := true }
    let resolvedName : Except String String :=
      if cfg.midi.inputPort = "" then
        match port.portNames with
        | Except.error e => Except.error ("fehler beim Abrufen der MIDI-Ports: " ++ e)
        | Except.ok ports =>
          if ports.isEmpty then Except.error "keine MIDI-Ports verfügbar"
          else Except.ok (ports.headD "")
      else Except.ok cfg.midi.inputPort
    match resolvedName with
    | Except.error e => (Except.error e, s)
    | Except.ok portName =>
      match port.openPort portName with
      | Except.error e =>
        (Except.error ("fehler beim Öffnen des MIDI-Ports: " ++ e), s)
      | Except.ok _ =>
        match port.readEvents with
        | Except.error e =>
          (Except.error ("fehler beim Starten des Event-Streams: " ++ e), s)
        | Except.ok _ => (Except.ok (), s)

/-- `Handler.Close` from `internal/midi/handler.go`: a no-op returning
`nil` when not running; otherwise closes the port (errors logged, not
propagated), closes both internal channels, clears `isRunning`, returns
`nil`. -/
def close (s : HandlerState) : Except String Unit × HandlerState :=
  if ¬ s.isRunning then (Except.ok (), s)
  else
    (Except.ok (),
      { isRunning := false
        portCloseCalls := s.portCloseCalls + 1
        doneCloseCalls := s.doneCloseCalls + 1
        eventChanCloseCalls := s.eventChanCloseCalls + 1 })

/-- `Handler.IsRunning`. -/
def isRunningQuery (s : HandlerState) : Bool := s.isRunning

/-- `Except.isOk`-style helper: whether a call succeeded. -/
def exceptOk : Except String Unit → Bool
  | Except.ok _ => true
  | Except.error _ => false

/-! ## Action registry (`Manager.Execute`, `Manager.ValidateAction`) -/

/-- An entry of the executor registry: the `Execute` behaviour and, when
the executor also implements the `ActionValidator` interface, its
`Validate` behaviour (`none` when it does not). -/
structure ExecutorModel where
  execute : Action → Except String Unit
  validate : Option (Action → Except String Unit)

/-- The `Manager`, reduced to its executor map keyed by action type
(`m.executors`), embedded as a lookup function. -/
def Manager := String → Option ExecutorModel

/-- `Manager.Execute`: look up the executor by `action.Type`; error
naming the type when absent; otherwise delegate and wrap any failure with
the action type. -/
def Manager.Execute (m : Manager) (action : Action) : Except String Unit :=
  match m action.type with
  | none =>
    Except.error ("kein Executor für Aktion-Typ '" ++ action.type ++ "' gefunden")
  | some executor =>
    match executor.execute action with
    | Except.error e =>
      Except.error ("fehler beim Ausführen der Aktion '" ++ action.type ++ "': " ++ e)
    | Except.ok _ => Except.ok ()

/-- `Manager.ValidateAction`: look up the executor by type; error naming
the type when absent; otherwise run the executor's own `Validate` when it
implements `ActionValidator`, else succeed. -/
def Manager.ValidateAction (m : Manager) (action : Action) : Except String Unit :=
  match m action.type with
  | none => Except.error ("ungültiger Aktion-Typ: " ++ action.type)
  | some executor =>
    match executor.validate with
    | some v => v action
    | none => Except.ok ()

/-! ## Configuration loading (`setDefaults`, `validate`, `Load`) -/

/-- `config.setDefaults`: channel 0 becomes -1 (all channels), timeout 0
becomes 30, empty log level becomes "info", action delay 0 becomes 100,
and every mapping with `Enabled == false` is set to `Enabled = true`. -/
def setDefaults (c : Config) : Config :=
  { midi :=
      { c.midi with
        channel := if c.midi.channel = 0 then -1 else c.midi.channel
        timeout := if c.midi.timeout = 0 then 30 else c.midi.timeout }
    general :=
      { c.general with
        logLevel := if c.general.logLevel = "" then "info" else c.general.logLevel
        actionDelay := if c.general.actionDelay = 0 then 100 else c.general.actionDelay }
    mappings :=
      c.mappings.map fun m =>
        if ¬ m.enabled then { m with enabled := true } else m }

/-- `config.validateMIDIEvent`: per-type range checks; unknown event
types are rejected. -/
def validateMIDIEvent (event : CfgMIDIEvent) : Except String Unit :=
  if event.type = "note_on" ∨ event.type = "note_off" then
    if event.note < 0 ∨ event.note > 127 then
      Except.error "ungültige MIDI-Note"
    else if event.velocity < 0 ∨ event.velocity > 127 then
      Except.error "ungültige Velocity"
    else Except.ok ()
  else if event.type = "control_change" then
    if event.controller < 0 ∨ event.controller > 127 then
      Except.error "ungültiger Controller"
    else if event.value < 0 ∨ event.value > 127 then
      Except.error "ungültiger Controller-Wert"
    else Except.ok ()
  else if event.type = "program_change" then
    if event.program < 0 ∨ event.program > 127 then
      Except.error "ungültiges Program"
    else Except.ok ()
  else Except.error ("ungültiger Event-Typ: " ++ event.type)

/-- `config.validateAction`: each known action type requires one
parameter key; unknown action types are rejected. -/
def validateAction (action : Action) : Except String Unit :=
  if action.type = "volume" then
    if action.parameters.contains "direction" then Except.ok ()
    else Except.error "volume-Aktion benötigt 'direction' Parameter"
  else if action.type = "app_start" then
    if action.parameters.contains "path" then Except.ok ()
    else Except.error "app_start-Aktion benötigt 'path' Parameter"
  else if action.type = "key_combination" then
    if action.parameters.contains "keys" then Except.ok ()
    else Except.error "key_combination-Aktion benötigt 'keys' Parameter"
  else if action.type = "audio_source" then
    if action.parameters.contains "source" then Except.ok ()
    else Except.error "audio_source-Aktion benötigt 'source' Parameter"
  else Except.error ("ungültiger Aktion-Typ: " ++ action.type)

/-- `config.validateMapping`: event then action. -/
def validateMapping (m : Mapping) : Except String Unit :=
  match validateMIDIEvent m.event with
  | Except.error e => Except.error ("ungültiges MIDI-Event: " ++ e)
  | Except.ok _ =>
    match validateAction m.action with
    | Except.error e => Except.error ("ungültige Aktion: " ++ e)
    | Except.ok _ => Except.ok ()

/-- The mapping loop of `config.validate`. -/
def validateMappings : List Mapping → Except String Unit
  | [] => Except.ok ()
  | m :: rest =>
    match validateMapping m with
    | Except.error e => Except.error ("ungültiges Mapping: " ++ e)
    | Except.ok _ => validateMappings rest

/-- `config.validate`: channel range check, then every mapping. -/
def validateConfig (c : Config) : Except String Unit :=
  if c.midi.channel < -1 ∨ c.midi.channel > 15 then
    Except.error "ungültiger MIDI-Kanal"
  else validateMappings c.mappings

/-- `config.Load`, from the point where the JSON decoder has produced a
`Config` value (file access and JSON decoding are outside the embedding):
apply `setDefaults`, then `validate`; return the defaulted configuration
on success. -/
def load (decoded : Config) : Except String Config :=
  let c := setDefaults decoded
  match validateConfig c with
  | Except.error e => Except.error ("ungültige Konfiguration: " ++ e)
  | Except.ok _ => Except.ok c

/-! ## Helper lemmas -/

/-- The mapping loop launches exactly the actions of the enabled,
matching mappings, in order. -/
theorem dispatchMappings_eq_filter (event : MIDIEvent) (ms : List Mapping) :
    dispatchMappings event ms =
      (ms.filter fun m => m.enabled && matchesMapping event m.event).map Mapping.action := by
  induction ms with
  | nil => rfl
  | cons m rest ih =>
    by_cases hm : m.enabled
    · by_cases hmatch : matchesMapping event m.event
      · simp [dispatchMappings, hm, hmatch, List.filter, ih]
      · simp [dispatchMappings, hm, hmatch, List.filter, ih]
    · simp [dispatchMappings, hm, List.filter, ih]

/-- `matchesMapping` never inspects the event's channel. -/
theorem matchesMapping_channel_irrel (event : MIDIEvent) (c : Int) (f : CfgMIDIEvent) :
    matchesMapping { event with channel := c } f = matchesMapping event f := rfl

/-- The mapping loop never inspects the event's channel. -/
theorem dispatchMappings_channel_irrel (event : MIDIEvent) (c : Int) (ms : List Mapping) :
    dispatchMappings { event with channel := c } ms = dispatchMappings event ms := by
  induction ms with
  | nil => rfl
  | cons m rest ih =>
    simp [dispatchMappings, matchesMapping_channel_irrel, ih]

/-! ## Concrete sample data for witnesses -/

def sampleNoteFilter : CfgMIDIEvent :=
  { type := "note_on", note := 60, controller := 0, program := 0
    velocity := 0, value := 0 }

def sampleMappingA : Mapping :=
  { name := "a", event := sampleNoteFilter
    action := { type := "volume", parameters := ["direction"] }, enabled := true }

def sampleMappingB : Mapping :=
  { name := "b", event := sampleNoteFilter
    action := { type := "app_start", parameters := ["path"] }, enabled := false }

def sampleGeneral : GeneralConfig :=
  { logLevel := "info", autoRestart := false, actionDelay := 100 }

def sampleCfgAll : Config :=
  { midi := { inputPort := "", channel := -1, timeout := 30 }
    mappings := [sampleMappingA, sampleMappingB], general := sampleGeneral }

def sampleCfgCh3 : Config :=
  { midi := { inputPort := "", channel := 3, timeout := 30 }
    mappings := [sampleMappingA], general := sampleGeneral }

def sampleNoteOn (ch vel : Int) : MIDIEvent :=
  { type := "note_on", channel := ch, note := 60, controller := 0
    program := 0, velocity := vel, value := 0 }

/-! ## Claim theorems -/

/-- C1: for every event accepted by the channel filter, the dispatch
launches exactly one action-execute call per enabled mapping whose filter
matches the event — the launched actions are exactly the actions of the
enabled matching mappings; a disabled mapping never contributes, and an
event matching zero mappings launches nothing. -/
theorem handleEvent_fanout (cfg : Config) (event : MIDIEvent)
    (hacc : cfg.midi.channel = -1 ∨ event.channel = cfg.midi.channel) :
    handleEvent cfg event =
      (cfg.mappings.filter fun m => m.enabled && matchesMapping event m.event).map
        Mapping.action := by
  have hcond : ¬ (cfg.midi.channel ≠ -1 ∧ event.channel ≠ cfg.midi.channel) := by
    rcases hacc with h | h <;> simp [h]
  unfold handleEvent
  rw [if_neg hcond]
  exact dispatchMappings_eq_filter event cfg.mappings

theorem handleEvent_fanout_witness :
    handleEvent sampleCfgAll (sampleNoteOn 0 100) = [sampleMappingA.action] :=
  (handleEvent_fanout sampleCfgAll (sampleNoteOn 0 100) (Or.inl rfl)).trans (by decide)

/-- C2: with a configured channel other than -1, an event on a different
channel is discarded (no execute call, whatever the mappings say); with
configured channel -1 the event's channel has no influence on the
dispatch result. -/
theorem handleEvent_channelFilter (cfg : Config) (event : MIDIEvent) :
    (cfg.midi.channel ≠ -1 → event.channel ≠ cfg.midi.channel →
      handleEvent cfg event = []) ∧
    (cfg.midi.channel = -1 → ∀ c : Int,
      handleEvent cfg { event with channel := c } = handleEvent cfg event) := by
  constructor
  · intro h1 h2
    simp [handleEvent, h1, h2]
  · intro h c
    simp [handleEvent, h, dispatchMappings_channel_irrel]

theorem handleEvent_channelFilter_witness :
    handleEvent sampleCfgCh3 (sampleNoteOn 5 100) = [] :=
  (handleEvent_channelFilter sampleCfgCh3 (sampleNoteOn 5 100)).1 (by decide) (by decide)

/-- C3: for a note-on/note-off event and a filter of the same type with
equal note, filter velocity 0 always matches, and a positive filter
velocity is a minimum-velocity gate: the match fails exactly when the
incoming velocity is below it and succeeds exactly when at or above it.
The same threshold semantics holds for control-change with the filter's
value field gating the event's value, given equal controller. -/
theorem matchesMapping_threshold (e : MIDIEvent) (f : CfgMIDIEvent) :
    ((e.type = "note_on" ∨ e.type = "note_off") → f.type = e.type → e.note = f.note →
      ((f.velocity = 0 → matchesMapping e f = true) ∧
       (0 < f.velocity →
         ((matchesMapping e f = false ↔ e.velocity < f.velocity) ∧
          (matchesMapping e f = true ↔ f.velocity ≤ e.velocity))))) ∧
    (e.type = "control_change" → f.type = e.type → e.controller = f.controller →
      ((f.value = 0 → matchesMapping e f = true) ∧
       (0 < f.value →
         ((matchesMapping e f = false ↔ e.value < f.value) ∧
          (matchesMapping e f = true ↔ f.value ≤ e.value))))) := by
  constructor
  · intro ht hf hn
    constructor
    · intro hv0
      rcases ht with h | h <;> simp [matchesMapping, hf, hn, h, hv0]
    · intro hvpos
      constructor
      · rcases ht with h | h <;>
          · simp only [matchesMapping, hf, hn, h]
            by_cases hlt : e.velocity < f.velocity <;> simp [hlt, hvpos]
      · rcases ht with h | h <;>
          · simp only [matchesMapping, hf, hn, h]
            by_cases hlt : e.velocity < f.velocity
            · simp [hlt, hvpos]
            · simp only [hlt, hvpos]
              simp
              omega
  · intro ht hf hc
    constructor
    · intro hv0
      simp [matchesMapping, hf, hc, ht, hv0]
    · intro hvpos
      constructor
      · simp only [matchesMapping, hf, hc, ht]
        by_cases hlt : e.value < f.value <;> simp [hlt, hvpos]
      · simp only [matchesMapping, hf, hc, ht]
        by_cases hlt : e.value < f.value
        · simp [hlt, hvpos]
        · simp only [hlt, hvpos]
          simp
          omega

theorem matchesMapping_threshold_witness :
    matchesMapping (sampleNoteOn 0 50)
      { type := "note_on", note := 60, controller := 0, program := 0
        velocity := 64, value := 0 } = false :=
  ((((matchesMapping_threshold (sampleNoteOn 0 50)
      { type := "note_on", note := 60, controller := 0, program := 0
        velocity := 64, value := 0 }).1
    (Or.inl rfl) rfl rfl).2 (by decide)).1).mpr (by decide)

def unknownTypeEvent : MIDIEvent :=
  { type := "weird", channel := 0, note := 0, controller := 0, program := 0
    velocity := 0, value := 0 }

def unknownTypeFilter : CfgMIDIEvent :=
  { type := "weird", note := 0, controller := 0, program := 0
    velocity := 0, value := 0 }

/-- C4 counterexample: a filter whose type is none of the four known
types does match an event carrying the same unknown type string — the
switch falls through to `return true` — refuting the claim that an
unknown filter type never matches any event. -/
theorem matchesMapping_unknownType_counterexample :
    ¬ (unknownTypeFilter.type = "note_on" ∨ unknownTypeFilter.type = "note_off" ∨
       unknownTypeFilter.type = "control_change" ∨
       unknownTypeFilter.type = "program_change") ∧
    matchesMapping unknownTypeEvent unknownTypeFilter = true := by
  exact ⟨by decide, by decide⟩

/-- C4 amended: for a filter whose type is none of the four known types,
the match succeeds exactly when the event carries the same type string
(no field of either side is checked); in particular it fails whenever the
event's type differs. -/
theorem matchesMapping_unknownType (e : MIDIEvent) (f : CfgMIDIEvent)
    (h : ¬ (f.type = "note_on" ∨ f.type = "note_off" ∨ f.type = "control_change" ∨
            f.type = "program_change")) :
    matchesMapping e f = true ↔ e.type = f.type := by
  push_neg at h
  obtain ⟨h1, h2, h3, h4⟩ := h
  by_cases he : e.type = f.type
  · simp [matchesMapping, he, h1, h2, h3, h4]
  · simp [matchesMapping, he]

theorem matchesMapping_unknownType_witness :
    matchesMapping unknownTypeEvent unknownTypeFilter = true :=
  (matchesMapping_unknownType unknownTypeEvent unknownTypeFilter (by decide)).mpr rfl

/-! ## Lifecycle claims -/

/-- A port whose name listing succeeds with an empty list: `Start` then
fails with "keine MIDI-Ports verfügbar". -/
def noPortsPort : PortModel :=
  { portNames := Except.ok []
    openPort := fun _ => Except.ok ()
    readEvents := Except.ok () }

/-- A handler state whose running flag is set. -/
def runningState : HandlerState :=
  { isRunning := true, portCloseCalls := 0, doneCloseCalls := 0
    eventChanCloseCalls := 0 }

/-- C5: evaluating `Start` at a concrete transport failure (no MIDI ports
available, fresh handler): the error is propagated to the caller, but the
handler state still reports running — `Start` sets `isRunning` before the
transport steps and no error path resets it, contradicting the claim that
`isRunning()` reports false after a failed `Start`. -/
theorem start_noPorts_leavesRunningFlag :
    (start sampleCfgAll noPortsPort newHandlerState).1 =
      Except.error "keine MIDI-Ports verfügbar" ∧
    isRunningQuery (start sampleCfgAll noPortsPort newHandlerState).2 = true :=
  ⟨rfl, rfl⟩

/-- Any `Start` from a not-running state leaves the running flag set,
whatever the transport does and whatever the call returns. -/
theorem start_sets_flag (cfg : Config) (p : PortModel) (s : HandlerState)
    (h : s.isRunning = false) : (start cfg p s).2.isRunning = true := by
  unfold start
  simp only [h, Bool.false_eq_true, if_false]
  split
  · rfl
  · split
    · rfl
    · split <;> rfl

/-- A `Start` on a state whose running flag is set never succeeds. -/
theorem start_running_fails (cfg : Config) (p : PortModel) (s : HandlerState)
    (h : s.isRunning = true) : exceptOk (start cfg p s).1 = false := by
  simp [start, h, exceptOk]

/-- C6: a `Start` on an already-running handler fails with the
"already running" error and leaves the state untouched, without consulting
the transport (the result is the same for every port behaviour); and of
two consecutive `Start` calls on the same handler, at most one can
succeed — once the first has run, the second always fails. -/
theorem start_doubleStart (cfg : Config) (p1 p2 : PortModel) (s : HandlerState) :
    (s.isRunning = true →
      start cfg p1 s = (Except.error "handler läuft bereits", s) ∧
      start cfg p2 s = start cfg p1 s) ∧
    (exceptOk (start cfg p1 s).1 = true →
      exceptOk (start cfg p2 (start cfg p1 s).2).1 = false) := by
  constructor
  · intro h
    constructor <;> simp [start, h]
  · intro hok
    have h2 : (start cfg p1 s).2.isRunning = true := by
      by_cases h : s.isRunning = true
      · have hs : start cfg p1 s = (Except.error "handler läuft bereits", s) := by
          simp [start, h]
        rw [hs]
        exact h
      · exact start_sets_flag cfg p1 s (by simpa using h)
    exact start_running_fails cfg p2 (start cfg p1 s).2 h2

theorem start_doubleStart_witness :
    start sampleCfgAll noPortsPort runningState =
      (Except.error "handler läuft bereits", runningState) :=
  ((start_doubleStart sampleCfgAll noPortsPort noPortsPort runningState).1 rfl).1

/-- C7: `Close` on a running handler returns no error, and a second
`Close` afterwards is a no-op: it returns no error and leaves the state
exactly as the first `Close` left it — in particular the port-close and
channel-close counters do not increase, so nothing is released twice. -/
theorem close_idempotent (s : HandlerState) (h : s.isRunning = true) :
    (close s).1 = Except.ok () ∧
    close (close s).2 = (Except.ok (), (close s).2) := by
  constructor
  · simp [close, h]
  · simp [close, h]

theorem close_idempotent_witness :
    close (close runningState).2 = (Except.ok (), (close runningState).2) :=
  (close_idempotent runningState rfl).2

/-! ## Action-registry claim -/

/-- C8: for an action type with no registered executor, `Execute` fails
with an error spelling out the action type and `ValidateAction` fails the
same way — neither silently succeeds — and neither invokes any executor
(the result is fixed by the lookup miss alone).  For a registered
executor whose execute fails, `Execute` returns an error wrapping the
executor's error together with the action type. -/
theorem registry_execute_validate (m : Manager) (a : Action) :
    (m a.type = none →
      Manager.Execute m a =
        Except.error ("kein Executor für Aktion-Typ '" ++ a.type ++ "' gefunden") ∧
      Manager.ValidateAction m a =
        Except.error ("ungültiger Aktion-Typ: " ++ a.type)) ∧
    (∀ ex e, m a.type = some ex → ex.execute a = Except.error e →
      Manager.Execute m a =
        Except.error ("fehler beim Ausführen der Aktion '" ++ a.type ++ "': " ++ e)) := by
  constructor
  · intro h
    constructor <;> simp [Manager.Execute, Manager.ValidateAction, h]
  · intro ex e hex herr
    simp [Manager.Execute, hex, herr]

theorem registry_execute_validate_witness :
    Manager.Execute (fun _ => none) { type := "volume", parameters := [] } =
      Except.error "kein Executor für Aktion-Typ 'volume' gefunden" :=
  (((registry_execute_validate (fun _ => none)
      { type := "volume", parameters := [] }).1 rfl).1).trans rfl

/-! ## Configuration-loading claims -/

/-- A decoded configuration as it would come out of the JSON decoder:
channel 0, zero timeouts/delays, empty log level, and a mapping that the
file declares disabled. -/
def decodedSample : Config :=
  { midi := { inputPort := "", channel := 0, timeout := 0 }
    mappings := [sampleMappingB]
    general := { logLevel := "", autoRestart := false, actionDelay := 0 } }

/-- C9: every configuration `Load` returns has all mappings enabled —
the default-setting pass rewrites `enabled=false` to `true`, so a mapping
declared disabled in the file cannot come out of `Load` disabled. -/
theorem load_forces_enabled (decoded c : Config) (h : load decoded = Except.ok c) :
    ∀ m ∈ c.mappings, m.enabled = true := by
  unfold load at h
  cases hv : validateConfig (setDefaults decoded) with
  | error e => simp [hv] at h
  | ok _ =>
    simp [hv] at h
    subst h
    intro m hm
    simp only [setDefaults, List.mem_map] at hm
    obtain ⟨m0, _, rfl⟩ := hm
    by_cases he : m0.enabled = true <;> simp [he]

theorem load_forces_enabled_witness :
    ((setDefaults decodedSample).mappings.headD sampleMappingB).enabled = true :=
  load_forces_enabled decodedSample (setDefaults decodedSample) rfl
    ((setDefaults decodedSample).mappings.headD sampleMappingB) (by decide)

/-- C10: if the decoded file declares MIDI channel 0, the configuration
`Load` returns has channel -1 (all channels); and no configuration `Load`
returns can have channel 0, so dispatch can never be restricted to MIDI
channel 0 only. -/
theorem load_channelZero (decoded c : Config) (h : load decoded = Except.ok c) :
    (decoded.midi.channel = 0 → c.midi.channel = -1) ∧ c.midi.channel ≠ 0 := by
  unfold load at h
  cases hv : validateConfig (setDefaults decoded) with
  | error e => simp [hv] at h
  | ok _ =>
    simp [hv] at h
    subst h
    constructor
    · intro h0
      simp [setDefaults, h0]
    · by_cases h0 : decoded.midi.channel = 0 <;> simp [setDefaults, h0]

theorem load_channelZero_witness :
    (setDefaults decodedSample).midi.channel = -1 :=
  (load_channelZero decodedSample (setDefaults decodedSample) rfl).1 rfl

end MidiDaemon
